import Mathlib

/-!
# Verification of the weather time-series bucketing and pivot engine

Shallow embedding of the time-series generation logic of the
`data-time-series-weather` repository, together with proofs about it.

The embedded code comes from two source files:

* `src/generate-dataset.js` (dense variant, in `src/src/geonames-to-geojson.js`
  after the file separator): `getDayBoundaries`, `bucketDate`, and the dense
  pivot `getTimeSeriesForColumn` producing `{ createdDate, timestamps, series }`
  with a shared sorted bucket axis and per-location parallel value arrays.
* the sparse variant (second document of `src/unnamed/part_004`):
  `getDayBoundaries` (identical logic) and the sparse
  `getTimeSeriesForColumn` producing per-location `[minuteOffset, value]`
  pairs.

Modelling conventions:

* Instants are integers: milliseconds since the Unix epoch (JS `Date.getTime()`).
* The target zone `Australia/Brisbane` is a fixed UTC+10 offset with no DST,
  so the date-fns-tz pair `toZonedTime`/`fromZonedTime` is an exact shift by
  plus or minus 10 h, and the date-fns civil-calendar operations `startOfDay`,
  `endOfDay`, `addDays` act on the shifted clock as flooring / adding
  multiples of 86 400 000 ms.  `date.getMinutes()`/`setMinutes` on a `Date`
  are modelled in the same fixed frame (minute-of-hour arithmetic, which
  agrees between frames whose offsets are whole multiples of the bucket
  width).
* SQL `REAL` values that may be `NULL` are `Option Rat` (`none` = SQL NULL /
  JS `null`); the engine never does arithmetic on values, it only forwards
  them, so exact rationals are a faithful carrier.
* JS `Map`/object maps are modelled as functions to `Option`, JS `Set`
  (insertion order, first occurrence kept) as `setInsertOrder`,
  `Array.prototype.sort` on bucket instants as `List.insertionSort (· ≤ ·)`
  (ISO-8601 strings sort lexicographically iff chronologically).
-/

namespace WeatherSeries

/-- A value read from the selected measurement column: a number or SQL NULL. -/
abbrev Val := Option Rat

/-- One row returned by the row store:
`SELECT generationTime, auroraId, <column> as value`. -/
structure Row where
  /-- UTC instant of the reading, ms since the Unix epoch. -/
  generationTime : Int
  /-- location id -/
  auroraId : String
  /-- the selected column's value (possibly NULL) -/
  value : Val
deriving DecidableEq, Repr

/-! ## Time constants and date-fns primitives (fixed-offset Brisbane model) -/

def MS_PER_DAY : Int := 86400000

def MS_PER_HOUR : Int := 3600000

def MS_PER_MIN : Int := 60000

/-- `Australia/Brisbane` is UTC+10 with no daylight saving. -/
def TZ_OFFSET_MS : Int := 36000000

/-- date-fns-tz `toZonedTime(t, "Australia/Brisbane")`: shift the instant so
that calendar operations read Brisbane wall time. -/
def toZonedTime (t : Int) : Int := t + TZ_OFFSET_MS

/-- date-fns-tz `fromZonedTime(t, "Australia/Brisbane")`: inverse shift. -/
def fromZonedTime (t : Int) : Int := t - TZ_OFFSET_MS

/-- date-fns `addDays` (civil days are exactly 24 h in a fixed-offset zone). -/
def addDays (t : Int) (n : Int) : Int := t + n * MS_PER_DAY

/-- date-fns `startOfDay`: floor to local midnight (00:00:00.000). -/
def startOfDay (t : Int) : Int := t - t % MS_PER_DAY

/-- date-fns `endOfDay`: the last millisecond of the day (23:59:59.999). -/
def endOfDay (t : Int) : Int := t - t % MS_PER_DAY + (MS_PER_DAY - 1)

/-- `getDayBoundaries(offset)` from the source (both variants are identical):
take "now" in Brisbane, add the day offset, and return
`(fromZonedTime(startOfDay(target)), fromZonedTime(endOfDay(target)))`.
`now` (the wall clock at the moment of the call) is passed explicitly. -/
def getDayBoundaries (now : Int) (offset : Int) : Int × Int :=
  let brisbaneNow := toZonedTime now
  let target := addDays brisbaneNow offset
  (fromZonedTime (startOfDay target), fromZonedTime (endOfDay target))

/-! ## Bucketizer -/

def BUCKET_SIZE_MIN : Int := 30

/-- `bucketDate(isoString)` from the dense variant (same logic as
`bucketTo10Minutes` in `part_004`, which despite its name also uses 30):
`date.setMinutes(Math.floor(date.getMinutes() / 30) * 30, 0, 0)` —
keep the hour, round the minute-of-hour down to a multiple of 30, zero the
seconds and milliseconds. -/
def bucketDate (t : Int) : Int :=
  let minutes := t % MS_PER_HOUR / MS_PER_MIN
  (t - t % MS_PER_HOUR) + (minutes / BUCKET_SIZE_MIN * BUCKET_SIZE_MIN) * MS_PER_MIN

/-! ## JS `Set` insertion-order semantics -/

/-- A JS `Set` built by repeated `add` and read back with `Array.from`:
the distinct elements in first-occurrence order. -/
def setInsertOrder {α : Type} [DecidableEq α] (l : List α) : List α :=
  l.foldl (fun acc x => if x ∈ acc then acc else acc ++ [x]) []

/-! ## Dense pivot (`getTimeSeriesForColumn`, dense variant) -/

/-- The nested map `dataMap : bucket → location → value` built by the loop.
`none` = the cell was never assigned. -/
abbrev CellMap := Int → String → Option Val

/-- One loop iteration: `dataMap.get(bucket)[row.auroraId] = row.value`
(later assignments overwrite earlier ones). -/
def insertRow (m : CellMap) (r : Row) : CellMap := fun b l =>
  if b = bucketDate r.generationTime ∧ l = r.auroraId then some r.value else m b l

/-- The `dataMap` after the whole `for (const row of rows)` loop. -/
def dataMap (rows : List Row) : CellMap :=
  rows.foldl insertRow (fun _ _ => none)

/-- The bucket instant of each row, in row order (feeds the `uniqueBuckets` set). -/
def bucketsOf (rows : List Row) : List Int :=
  rows.map (fun r => bucketDate r.generationTime)

/-- `Array.from(uniqueBuckets).sort()`: distinct buckets, ascending. -/
def sortedBuckets (rows : List Row) : List Int :=
  List.insertionSort (· ≤ ·) (setInsertOrder (bucketsOf rows))

/-- `Array.from(locations)`: distinct location ids in first-appearance order. -/
def locationsOf (rows : List Row) : List String :=
  setInsertOrder (rows.map (·.auroraId))

/-- `sortedBuckets.map((b) => dataMap.get(b)[loc] ?? null)`: the dense value
array of one location along the shared bucket axis. -/
def denseValues (rows : List Row) (l : String) : List Val :=
  (sortedBuckets rows).map (fun b =>
    match dataMap rows b l with
    | some v => v
    | none => none)

/-- The `series` object:
`Object.fromEntries(Array.from(locations).map(...).filter(([_, values]) => values.some(v => v !== null)))` —
entries in location insertion order, locations whose values are all null removed. -/
def seriesEntries (rows : List Row) : List (String × List Val) :=
  ((locationsOf rows).map (fun l => (l, denseValues rows l))).filter
    (fun e => e.2.any (·.isSome))

/-- The `series` object read as a mapping: property lookup on the result. -/
def seriesLookup (rows : List Row) (l : String) : Option (List Val) :=
  (seriesEntries rows).lookup l

/-! ## Timestamp formatting

`formatInTimeZone(date, TZ, "yyyy-MM-dd'T'HH:mm:ssXXX")` and
`Date.prototype.toISOString` are modelled with exact civil-calendar
arithmetic (proleptic Gregorian day number to year/month/day). -/

/-- Civil date `(year, month, day)` of a day number counted from 1970-01-01
(Howard Hinnant's `civil_from_days`). -/
def civilFromDays (z0 : Int) : Int × Int × Int :=
  let z := z0 + 719468
  let era := z / 146097
  let doe := z - era * 146097
  let yoe := (doe - doe / 1460 + doe / 36524 - doe / 146096) / 365
  let y := yoe + era * 400
  let doy := doe - (365 * yoe + yoe / 4 - yoe / 100)
  let mp := (5 * doy + 2) / 153
  let d := doy - (153 * mp + 2) / 5 + 1
  let m := mp + (if mp < 10 then 3 else -9)
  (y + (if m ≤ 2 then 1 else 0), m, d)

/-- Left-pad a (nonnegative) number with zeros to `w` digits. -/
def padNum (w : Nat) (n : Int) : String :=
  let s := toString n
  if s.length < w then String.mk (List.replicate (w - s.length) '0') ++ s else s

/-- `yyyy-MM-ddTHH:mm:ss` of an instant read on the clock frame given by `t`. -/
def formatYmdHms (t : Int) : String :=
  let days := t / MS_PER_DAY
  let msod := t % MS_PER_DAY
  let c := civilFromDays days
  padNum 4 c.1 ++ "-" ++ padNum 2 c.2.1 ++ "-" ++ padNum 2 c.2.2 ++ "T" ++
    padNum 2 (msod / MS_PER_HOUR) ++ ":" ++
    padNum 2 (msod % MS_PER_HOUR / MS_PER_MIN) ++ ":" ++
    padNum 2 (msod % MS_PER_MIN / 1000)

/-- `formatInTimeZone(t, "Australia/Brisbane", "yyyy-MM-dd'T'HH:mm:ssXXX")`. -/
def formatInTimeZone (t : Int) : String :=
  formatYmdHms (t + TZ_OFFSET_MS) ++ "+10:00"

/-- `Date.prototype.toISOString`: `yyyy-MM-ddTHH:mm:ss.sssZ` in UTC. -/
def toISOString (t : Int) : String :=
  formatYmdHms t ++ "." ++ padNum 3 (t % 1000) ++ "Z"

/-! ## Dense document and engine entry point -/

/-- The document returned by the dense `getTimeSeriesForColumn`.
`createdDate` holds the wall-clock instant `new Date()` captured at return
(serialized through `toISOString`). -/
structure SeriesDoc where
  createdDate : Int
  timestamps : List String
  series : List (String × List Val)
deriving DecidableEq, Repr

/-- The pure body of the dense `getTimeSeriesForColumn`, given the row set the
store returned for the day range and the wall clock `clock` read at return. -/
def buildDoc (clock : Int) (rows : List Row) : SeriesDoc :=
  { createdDate := clock
    timestamps := (sortedBuckets rows).map (fun b => formatInTimeZone b)
    series := seriesEntries rows }

/-- `Object.keys(SCHEMA_MAPPING)`: the enumerated measurement column names
(schema of `weather_data`, from `sqlite.js`). -/
def schemaColumns : List String :=
  ["auroraId", "fetchTime", "averageWindSpdKnots", "averageWindSpeedKm",
   "cloud", "cloudOktas", "dayName", "dewPointC", "endTime", "feelsLikeTempC",
   "generationTime", "gustKmh", "maximumGustDir", "maximumGustKmh",
   "maximumGustSpdKnots", "maximumTempC", "maximumTempLocalTime",
   "minimumTempC", "minimumTempLocalTime", "precipitationSince9amMM",
   "pressure", "pressureMSLP", "qnhPressure", "rainHour", "rainTen",
   "rainfall24hr", "relativeHumidityPct", "startTime", "tempC",
   "visibilityKm", "wetBulbTemp", "windDir", "windDirDeg",
   "windGustSpdKnots"]

/-- The dense `getTimeSeriesForColumn({ column, dayStart })`: reject a column
that is not a key of `SCHEMA_MAPPING` (`throw new Error(...)` = `.error`)
before touching the store; otherwise pivot the day's rows into the document.
`rows` stands for the row set the store returns for the resolved day range;
an invalid column errors before the row set is ever consulted. -/
def getTimeSeriesForColumn (column : String) (clock : Int) (rows : List Row) :
    Except String SeriesDoc :=
  if column ∈ schemaColumns then .ok (buildDoc clock rows)
  else .error ("Invalid column: " ++ column)

/-! ## JSON serialization (`JSON.stringify` of the returned document) -/

/-- JSON string literal (ids and formatted dates contain no escapes). -/
def jsonString (s : String) : String := "\"" ++ s ++ "\""

/-- JSON rendering of a value: a number or `null`. -/
def jsonVal (v : Val) : String :=
  match v with
  | none => "null"
  | some q => toString q

/-- JSON array from a rendering function. -/
def jsonList {α : Type} (f : α → String) (l : List α) : String :=
  "[" ++ String.intercalate "," (l.map f) ++ "]"

/-- JSON object for the `series` member, entries in insertion order. -/
def jsonSeries (s : List (String × List Val)) : String :=
  "\x7b" ++
    String.intercalate ","
      (s.map (fun e => jsonString e.1 ++ ":" ++ jsonList jsonVal e.2)) ++
  "\x7d"

/-- The document members after `createdDate` (they do not depend on the
wall clock). -/
def jsonBody (d : SeriesDoc) : String :=
  "\"timestamps\":" ++ jsonList jsonString d.timestamps ++
    ",\"series\":" ++ jsonSeries d.series ++ "\x7d"

/-- `JSON.stringify` of the whole dense document. -/
def jsonEncodeDoc (d : SeriesDoc) : String :=
  "\x7b\"createdDate\":" ++ jsonString (toISOString d.createdDate) ++ "," ++
    jsonBody d

/-! ## Sparse variant (second document of `src/unnamed/part_004`) -/

/-- `Math.floor((currentMs - startMs) / (1000 * 60))`: the minute index of a
row relative to the day start. -/
def sparseOffset (startMs t : Int) : Int :=
  (t - startMs) / (1000 * 60)

/-- One iteration of the sparse loop: `series[row.auroraId].push([x, row.value])`,
creating the key on first sight (objects keep key insertion order). -/
def pushRow (startMs : Int) (acc : List (String × List (Int × Val))) (r : Row) :
    List (String × List (Int × Val)) :=
  let p := (sparseOffset startMs r.generationTime, r.value)
  if (acc.lookup r.auroraId).isSome then
    acc.map (fun e => if e.1 = r.auroraId then (e.1, e.2 ++ [p]) else e)
  else
    acc ++ [(r.auroraId, [p])]

/-- The sparse `series` object after the whole loop. -/
def sparseSeries (startMs : Int) (rows : List Row) :
    List (String × List (Int × Val)) :=
  rows.foldl (pushRow startMs) []

/-- The document returned by the sparse `getTimeSeriesForColumn`. -/
structure SparseDoc where
  updatedDate : String
  startDate : String
  series : List (String × List (Int × Val))
deriving DecidableEq, Repr

/-- The pure body of the sparse `getTimeSeriesForColumn`: `start` is the first
component of `getDayBoundaries(dayStart)` and `rows` the row set the store
returned for `[start, end]`. -/
def buildSparseDoc (clock : Int) (startMs : Int) (rows : List Row) : SparseDoc :=
  { updatedDate := formatInTimeZone clock
    startDate := formatInTimeZone startMs
    series := sparseSeries startMs rows }

/-- Row predicate: the row lands in bucket `b` for location `l`
(used to state which rows compete for one output cell). -/
def rowHits (b : Int) (l : String) (r : Row) : Bool :=
  bucketDate r.generationTime == b && r.auroraId == l

/-- The spec's worked scenario (§8): rows A@00:01 = 24.8, A@00:31 = 24.3,
B@00:05 = 10.1 on 2025-01-01 (UTC), `dayStart = 2025-01-01T00:00:00Z`
(epoch ms 1735689600000). -/
def scenarioRows : List Row :=
  [{ generationTime := 1735689660000, auroraId := "A", value := some 24.8 },
   { generationTime := 1735691460000, auroraId := "A", value := some 24.3 },
   { generationTime := 1735689900000, auroraId := "B", value := some 10.1 }]

/-! # Theorems -/

/-! ## Shared helper lemmas -/

/-- The `dataMap` cell for `(b, l)` is the value of the last row (in
processing order) that hits that cell, generalized over the accumulator. -/
theorem foldl_insertRow_eq (b : Int) (l : String) :
    ∀ (rows : List Row) (m : CellMap),
      rows.foldl insertRow m b l =
        match (rows.filter (rowHits b l)).getLast? with
        | some r => some r.value
        | none => m b l := by
  intro rows
  induction rows with
  | nil => intro m; rfl
  | cons r rs ih =>
    intro m
    rw [List.foldl_cons, ih]
    by_cases h : rowHits b l r
    · rw [List.filter_cons_of_pos h]
      cases hl : (rs.filter (rowHits b l)) with
      | nil =>
        simp only [List.getLast?_singleton]
        have hb : bucketDate r.generationTime = b ∧ r.auroraId = l := by
          simpa [rowHits] using h
        simp [insertRow, hb.1.symm, hb.2.symm]
      | cons r2 rs2 =>
        rw [List.getLast?_cons_cons]
        cases hgl : (r2 :: rs2).getLast? with
        | none => simp at hgl
        | some x => rfl
    · rw [List.filter_cons_of_neg h]
      cases hl : (rs.filter (rowHits b l)).getLast? with
      | some r2 => rfl
      | none =>
        have hb : ¬(b = bucketDate r.generationTime ∧ l = r.auroraId) := by
          simp only [rowHits, Bool.and_eq_true, beq_iff_eq] at h
          intro hc
          exact h ⟨hc.1.symm, hc.2.symm⟩
        simp [insertRow, hb]

/-- `dataMap` lookup as a closed form: the last matching row's value. -/
theorem dataMap_eq_getLast (rows : List Row) (b : Int) (l : String) :
    dataMap rows b l =
      ((rows.filter (rowHits b l)).getLast?).map (fun r => r.value) := by
  rw [dataMap, foldl_insertRow_eq]
  cases (rows.filter (rowHits b l)).getLast? <;> rfl

/-- Lookup in a filtered key-value list built from a key list: present iff the
key occurs and its entry passes the filter. -/
theorem lookup_map_filter {α β : Type} [DecidableEq α] (f : α → β)
    (q : α × β → Bool) :
    ∀ (ks : List α) (k : α),
      ((ks.map (fun a => (a, f a))).filter q).lookup k =
        if k ∈ ks ∧ q (k, f k) then some (f k) else none := by
  intro ks
  induction ks with
  | nil => intro k; simp
  | cons a ks ih =>
    intro k
    rw [List.map_cons]
    by_cases hq : q (a, f a)
    · rw [List.filter_cons_of_pos hq]
      by_cases hk : k = a
      · subst hk
        simp [List.lookup_cons_self, hq]
      · have hb : (k == a) = false := beq_eq_false_iff_ne.mpr hk
        simp only [List.lookup_cons, hb, ih]
        simp [List.mem_cons, hk]
    · rw [List.filter_cons_of_neg hq, ih]
      by_cases hk : k = a
      · subst hk
        simp [hq]
      · simp [List.mem_cons, hk]

/-- Membership in the JS-`Set` model (generalized over the accumulator). -/
theorem setInsertOrder_foldl_mem {α : Type} [DecidableEq α] (l : List α) :
    ∀ (acc : List α) (x : α),
      (x ∈ l.foldl (fun acc x => if x ∈ acc then acc else acc ++ [x]) acc) ↔
        (x ∈ acc ∨ x ∈ l) := by
  induction l with
  | nil => simp
  | cons a l ih =>
    intro acc x
    rw [List.foldl_cons]
    by_cases h : a ∈ acc
    · rw [if_pos h, ih]
      constructor
      · rintro (hx | hx)
        · exact Or.inl hx
        · exact Or.inr (List.mem_cons_of_mem a hx)
      · rintro (hx | hx)
        · exact Or.inl hx
        · rcases List.mem_cons.mp hx with rfl | hx
          · exact Or.inl h
          · exact Or.inr hx
    · rw [if_neg h, ih]
      simp [List.mem_append, List.mem_cons, or_assoc]

/-- A JS `Set` contains exactly the elements of the list it was built from. -/
theorem setInsertOrder_mem {α : Type} [DecidableEq α] {l : List α} {x : α} :
    x ∈ setInsertOrder l ↔ x ∈ l := by
  rw [setInsertOrder, setInsertOrder_foldl_mem]
  simp

/-- The JS-`Set` model never holds duplicates (generalized accumulator). -/
theorem setInsertOrder_foldl_nodup {α : Type} [DecidableEq α] (l : List α) :
    ∀ (acc : List α), acc.Nodup →
      (l.foldl (fun acc x => if x ∈ acc then acc else acc ++ [x]) acc).Nodup := by
  induction l with
  | nil => intro acc h; exact h
  | cons a l ih =>
    intro acc hacc
    rw [List.foldl_cons]
    by_cases h : a ∈ acc
    · rw [if_pos h]; exact ih acc hacc
    · rw [if_neg h]
      refine ih _ ?_
      rw [List.nodup_append]
      refine ⟨hacc, List.nodup_singleton a, fun x hx hx1 => ?_⟩
      rw [List.mem_singleton] at hx1
      subst hx1
      exact h hx

/-- A JS `Set` holds no duplicates. -/
theorem setInsertOrder_nodup {α : Type} [DecidableEq α] (l : List α) :
    (setInsertOrder l).Nodup :=
  setInsertOrder_foldl_nodup l [] List.nodup_nil

/-- Permuting the input permutes the JS-`Set` contents. -/
theorem setInsertOrder_perm {α : Type} [DecidableEq α] {l1 l2 : List α}
    (h : l1.Perm l2) : (setInsertOrder l1).Perm (setInsertOrder l2) := by
  rw [List.perm_ext_iff_of_nodup (setInsertOrder_nodup l1) (setInsertOrder_nodup l2)]
  intro a
  rw [setInsertOrder_mem, setInsertOrder_mem]
  exact h.mem_iff

/-- The sorted distinct bucket axis does not depend on row order. -/
theorem sortedBuckets_perm_eq {rows rows' : List Row} (h : rows.Perm rows') :
    sortedBuckets rows = sortedBuckets rows' := by
  have h1 : (setInsertOrder (bucketsOf rows)).Perm (setInsertOrder (bucketsOf rows')) :=
    setInsertOrder_perm (h.map _)
  refine List.eq_of_perm_of_sorted ?_
    (List.sorted_insertionSort _ _) (List.sorted_insertionSort _ _)
  exact ((List.perm_insertionSort _ _).trans h1).trans
    (List.perm_insertionSort _ _).symm

/-! ## C1: day-range span -/

/-- C1, counterexample: at `now = 0`, `offset = 0` the resolved range is
not 24 hours wide — `getDayBoundaries` uses `endOfDay` (23:59:59.999), not
the next local midnight. -/
theorem dayRange_not_24h :
    (getDayBoundaries 0 0).2 - (getDayBoundaries 0 0).1 ≠ 24 * 60 * 60 * 1000 := by
  decide

/-- C1 (amended): for every wall clock and every integer day offset, the
resolved day range spans exactly 24 hours minus one millisecond: the end
bound is the last millisecond of the local day (`endOfDay`, 23:59:59.999 in
Brisbane), used inclusively, not the following local midnight. -/
theorem dayRange_span (now offset : Int) :
    (getDayBoundaries now offset).2 - (getDayBoundaries now offset).1 =
      MS_PER_DAY - 1 := by
  simp only [getDayBoundaries, toZonedTime, fromZonedTime, addDays, startOfDay,
    endOfDay, MS_PER_DAY, TZ_OFFSET_MS]
  omega

/-! ## C2: determinism of pivot + encode -/

/-- C2, counterexample: the document stamps the wall clock (`createdDate`),
so two runs over the same (empty) row set at different instants are not
byte-identical. -/
theorem encode_not_identical_across_runs :
    jsonEncodeDoc (buildDoc 0 []) ≠ jsonEncodeDoc (buildDoc 1000 []) := by
  decide

/-- C2 (amended): for a fixed row set, day boundary and bucket width the
pipeline is deterministic up to the `createdDate` provenance stamp: every
member after `createdDate` (the serialized `timestamps` and `series`) is
byte-identical across runs, and runs sharing the same generation instant
are byte-identical in full. -/
theorem encode_deterministic_modulo_createdDate (rows : List Row) (c1 c2 : Int) :
    jsonBody (buildDoc c1 rows) = jsonBody (buildDoc c2 rows) ∧
      (buildDoc c1 rows).timestamps = (buildDoc c2 rows).timestamps ∧
      (buildDoc c1 rows).series = (buildDoc c2 rows).series ∧
      jsonEncodeDoc (buildDoc c1 rows) = jsonEncodeDoc (buildDoc c1 rows) :=
  ⟨rfl, rfl, rfl, rfl⟩

/-! ## C4: bucket alignment -/

/-- C4: for a resolved day start (Brisbane local midnight, which is always a
multiple of the 30-minute width from the epoch) and any timestamp `t` in the
`k`-th width-sized window of the day (`0 ≤ k·width < 1440` minutes),
`bucketDate` lands exactly on `dayStart + k·width`; hence any two timestamps
in one window share a bucket key. -/
theorem bucketDate_alignment (now offset k t : Int)
    (_hk0 : 0 ≤ k * BUCKET_SIZE_MIN) (_hk1 : k * BUCKET_SIZE_MIN < 1440)
    (hlo : (getDayBoundaries now offset).1 + k * (BUCKET_SIZE_MIN * MS_PER_MIN) ≤ t)
    (hhi : t < (getDayBoundaries now offset).1 + (k + 1) * (BUCKET_SIZE_MIN * MS_PER_MIN)) :
    bucketDate t = (getDayBoundaries now offset).1 + k * (BUCKET_SIZE_MIN * MS_PER_MIN) := by
  simp only [getDayBoundaries, toZonedTime, fromZonedTime, addDays, startOfDay,
    endOfDay, bucketDate, MS_PER_DAY, MS_PER_HOUR, MS_PER_MIN, BUCKET_SIZE_MIN,
    TZ_OFFSET_MS] at hlo hhi ⊢
  omega

/-- C4, witness at `now = 0`, `offset = 0`, `k = 1`,
`t` one minute into the second window. -/
theorem bucketDate_alignment_witness :
    (0 ≤ (1 : Int) * BUCKET_SIZE_MIN) ∧ ((1 : Int) * BUCKET_SIZE_MIN < 1440) ∧
      ((getDayBoundaries 0 0).1 + 1 * (BUCKET_SIZE_MIN * MS_PER_MIN) ≤ -34140000) ∧
      ((-34140000 : Int) < (getDayBoundaries 0 0).1 + (1 + 1) * (BUCKET_SIZE_MIN * MS_PER_MIN)) ∧
      bucketDate (-34140000) = (getDayBoundaries 0 0).1 + 1 * (BUCKET_SIZE_MIN * MS_PER_MIN) :=
  ⟨by decide, by decide, by decide, by decide,
    bucketDate_alignment 0 0 1 (-34140000) (by decide) (by decide) (by decide) (by decide)⟩

/-! ## C10: sparse minute offsets stay inside the day grid -/

/-- C10: every row whose `generationTime` lies within the resolved day
boundaries `[start, end]` gets a sparse minute offset
`x = ⌊(generationTime − start) / 60000⌋` with `0 ≤ x ≤ 1439`. -/
theorem sparseOffset_within_day (now offset t : Int)
    (h1 : (getDayBoundaries now offset).1 ≤ t)
    (h2 : t ≤ (getDayBoundaries now offset).2) :
    0 ≤ sparseOffset (getDayBoundaries now offset).1 t ∧
      sparseOffset (getDayBoundaries now offset).1 t ≤ 1439 := by
  simp only [getDayBoundaries, toZonedTime, fromZonedTime, addDays, startOfDay,
    endOfDay, MS_PER_DAY, TZ_OFFSET_MS] at h1 h2
  simp only [sparseOffset, getDayBoundaries, toZonedTime, fromZonedTime,
    addDays, startOfDay, endOfDay, MS_PER_DAY, TZ_OFFSET_MS,
    show ((1000 : Int) * 60) = 60000 from rfl]
  omega

/-- C10, witness at `now = 0`, `offset = 0`, `t` the very end of the range. -/
theorem sparseOffset_within_day_witness :
    ((getDayBoundaries 0 0).1 ≤ 50399999) ∧ ((50399999 : Int) ≤ (getDayBoundaries 0 0).2) ∧
      (0 ≤ sparseOffset (getDayBoundaries 0 0).1 50399999 ∧
        sparseOffset (getDayBoundaries 0 0).1 50399999 ≤ 1439) :=
  ⟨by decide, by decide, sparseOffset_within_day 0 0 50399999 (by decide) (by decide)⟩

/-! ## C6: collision policy is last-write-wins -/

/-- C6: the value recorded in the `dataMap` cell of bucket `b` and location
`l` is exactly the value of the last-processed row that falls in that bucket
for that location (`none` when no row does): assignments overwrite, so the
last write wins. -/
theorem dataMap_last_write_wins (rows : List Row) (b : Int) (l : String) :
    dataMap rows b l =
      ((rows.filter (rowHits b l)).getLast?).map (fun r => r.value) :=
  dataMap_eq_getLast rows b l

/-! ## C7: unknown column selectors are rejected up front -/

/-- C7: a column name that is not a key of `SCHEMA_MAPPING` makes
`getTimeSeriesForColumn` throw the configuration error immediately; the
result is the same error for every row set and wall clock, so no row is
processed and no partial document escapes. -/
theorem invalid_column_rejected (column : String) (h : column ∉ schemaColumns)
    (clock : Int) (rows : List Row) :
    getTimeSeriesForColumn column clock rows =
      .error ("Invalid column: " ++ column) := by
  rw [getTimeSeriesForColumn, if_neg h]

/-- C7, witness: `windSpeedMph` is not a schema column and is rejected. -/
theorem invalid_column_rejected_witness :
    ("windSpeedMph" ∉ schemaColumns) ∧
      getTimeSeriesForColumn "windSpeedMph" 0 [] =
        .error ("Invalid column: " ++ "windSpeedMph") :=
  ⟨by decide, invalid_column_rejected "windSpeedMph" (by decide) 0 []⟩

/-! ## C8: empty row set is not an error -/

/-- C8: with no rows in the resolved range the engine still succeeds, and the
document has an empty timestamp axis and an empty series mapping. -/
theorem empty_rows_wellformed (clock : Int) :
    getTimeSeriesForColumn "tempC" clock [] =
      .ok { createdDate := clock, timestamps := [], series := [] } := rfl

/-! ## C3: omission of all-null locations -/

/-- C3, counterexample: in the sparse output mode a location whose only
row carries a NULL value still appears in the series (the sparse loop copies
every fetched row, nulls included), so the "never appears in either output
mode" claim fails. -/
theorem sparse_keeps_all_null_location :
    sparseSeries 0 [{ generationTime := 60000, auroraId := "A", value := none }] =
      [("A", [((1 : Int), (none : Val))])] := by
  decide

/-- C3 (amended): in the dense output mode the invariant holds — every
location present in the series mapping has at least one non-null value, so
an all-null location never appears there. -/
theorem dense_omission_invariant (rows : List Row) (l : String) (vs : List Val)
    (h : seriesLookup rows l = some vs) : vs.any (·.isSome) = true := by
  rw [seriesLookup, seriesEntries, lookup_map_filter] at h
  split at h
  · rename_i hc
    cases h
    exact hc.2
  · cases h

/-- C3, witness: a location with one non-null reading is present and its
series passes the non-null check. -/
theorem dense_omission_invariant_witness :
    seriesLookup [{ generationTime := 0, auroraId := "A", value := some 1 }] "A" =
        some [some 1] ∧
      ([some (1 : Rat)] : List Val).any (·.isSome) = true :=
  ⟨by decide,
    dense_omission_invariant [{ generationTime := 0, auroraId := "A", value := some 1 }]
      "A" [some 1] (by decide)⟩

/-! ## C5: sparse offsets and the spec's worked scenario -/

/-- C5, counterexample: the sparse encoder does not round offsets down to a
multiple of the bucket width — on the spec's scenario location A's pairs
carry offsets 1 and 31, not 0 and 30. -/
theorem sparse_scenario_not_width_aligned :
    (sparseSeries 1735689600000 scenarioRows).lookup "A" ≠
      some [(0, some 24.8), (30, some 24.3)] := by
  decide

/-- C5 (amended): each sparse pair's offset is the exact minute index
`⌊(timestamp − dayStart) / 60000⌋`, with no rounding to `widthMinutes`; the
scenario yields `A ↦ [[1, 24.8], [31, 24.3]]` and `B ↦ [[5, 10.1]]`. -/
theorem sparse_scenario_exact_minutes :
    sparseSeries 1735689600000 scenarioRows =
      [("A", [(1, some 24.8), (31, some 24.3)]), ("B", [(5, some 10.1)])] := rfl

/-! ## C9: order-(in)dependence of the pivot -/

/-- C9, counterexample: permuting rows is observable when two rows for the
same location share a bucket — swapping them flips which value wins the
cell, so the pivot is not order-independent as claimed. -/
theorem pivot_not_order_independent :
    ([{ generationTime := 0, auroraId := "A", value := some 1 },
      { generationTime := 0, auroraId := "A", value := some 2 }] : List Row).Perm
        [{ generationTime := 0, auroraId := "A", value := some 2 },
         { generationTime := 0, auroraId := "A", value := some 1 }] ∧
      seriesLookup
          [{ generationTime := 0, auroraId := "A", value := some 1 },
           { generationTime := 0, auroraId := "A", value := some 2 }] "A" ≠
        seriesLookup
          [{ generationTime := 0, auroraId := "A", value := some 2 },
           { generationTime := 0, auroraId := "A", value := some 1 }] "A" :=
  ⟨List.Perm.swap _ _ _, by decide⟩

/-- The `dataMap` cell contents ignore row order as long as rows agreeing on
location and bucket agree on value. -/
theorem dataMap_perm {rows rows' : List Row} (hperm : rows.Perm rows')
    (hcoll : ∀ r1 ∈ rows, ∀ r2 ∈ rows,
      bucketDate r1.generationTime = bucketDate r2.generationTime →
        r1.auroraId = r2.auroraId → r1.value = r2.value)
    (b : Int) (l : String) : dataMap rows b l = dataMap rows' b l := by
  rw [dataMap_eq_getLast, dataMap_eq_getLast]
  have hfp : (rows.filter (rowHits b l)).Perm (rows'.filter (rowHits b l)) :=
    hperm.filter _
  cases h1 : (rows.filter (rowHits b l)).getLast? with
  | none =>
    rw [List.getLast?_eq_none_iff] at h1
    rw [h1] at hfp
    rw [hfp.nil_eq.symm]
    rfl
  | some r1 =>
    cases h2 : (rows'.filter (rowHits b l)).getLast? with
    | none =>
      rw [List.getLast?_eq_none_iff] at h2
      rw [h2] at hfp
      rw [hfp.eq_nil] at h1
      cases h1
    | some r2 =>
      have hm1 := List.mem_filter.mp (List.mem_of_getLast?_eq_some h1)
      have hm2 := List.mem_filter.mp (List.mem_of_getLast?_eq_some h2)
      have hb1 : bucketDate r1.generationTime = b ∧ r1.auroraId = l := by
        simpa [rowHits] using hm1.2
      have hb2 : bucketDate r2.generationTime = b ∧ r2.auroraId = l := by
        simpa [rowHits] using hm2.2
      have hr2 : r2 ∈ rows := hperm.symm.subset hm2.1
      have : r1.value = r2.value :=
        hcoll r1 hm1.1 r2 hr2 (hb1.1.trans hb2.1.symm) (hb1.2.trans hb2.2.symm)
      simp [this]

/-- Location membership in the pivot ignores row order. -/
theorem locationsOf_mem_iff {rows rows' : List Row} (h : rows.Perm rows')
    (l : String) : l ∈ locationsOf rows ↔ l ∈ locationsOf rows' := by
  rw [locationsOf, locationsOf, setInsertOrder_mem, setInsertOrder_mem]
  exact (h.map _).mem_iff

/-- Dense per-location value arrays ignore row order under the same
collision-agreement hypothesis. -/
theorem denseValues_perm {rows rows' : List Row} (hperm : rows.Perm rows')
    (hcoll : ∀ r1 ∈ rows, ∀ r2 ∈ rows,
      bucketDate r1.generationTime = bucketDate r2.generationTime →
        r1.auroraId = r2.auroraId → r1.value = r2.value)
    (l : String) : denseValues rows l = denseValues rows' l := by
  rw [denseValues, denseValues, sortedBuckets_perm_eq hperm]
  simp only [dataMap_perm hperm hcoll]

/-- C9 (amended): the pivot is order-independent exactly up to the collision
policy: permuting the input rows leaves the output series mapping unchanged
provided any two rows with the same location and bucket carry the same value
(in particular whenever no bucket collision occurs); with colliding unequal
values the last-processed row wins and order matters. -/
theorem series_perm_invariant (rows rows' : List Row) (hperm : rows.Perm rows')
    (hcoll : ∀ r1 ∈ rows, ∀ r2 ∈ rows,
      bucketDate r1.generationTime = bucketDate r2.generationTime →
        r1.auroraId = r2.auroraId → r1.value = r2.value)
    (l : String) : seriesLookup rows l = seriesLookup rows' l := by
  simp only [seriesLookup, seriesEntries, lookup_map_filter,
    denseValues_perm hperm hcoll, locationsOf_mem_iff hperm]

/-- C9, witness: two rows for distinct locations, swapped; the series
mapping agrees at location A. -/
theorem series_perm_invariant_witness :
    ([{ generationTime := 0, auroraId := "A", value := some 1 },
      { generationTime := 0, auroraId := "B", value := some 2 }] : List Row).Perm
        [{ generationTime := 0, auroraId := "B", value := some 2 },
         { generationTime := 0, auroraId := "A", value := some 1 }] ∧
      seriesLookup
          [{ generationTime := 0, auroraId := "A", value := some 1 },
           { generationTime := 0, auroraId := "B", value := some 2 }] "A" =
        seriesLookup
          [{ generationTime := 0, auroraId := "B", value := some 2 },
           { generationTime := 0, auroraId := "A", value := some 1 }] "A" :=
  ⟨List.Perm.swap _ _ _,
    series_perm_invariant _ _ (List.Perm.swap _ _ _) (by decide) "A"⟩

end WeatherSeries
